import Mathlib

/-!
Verification of the training / verification pipeline of the repository
(`src/train.py` and `src/test_model.py`) against its specification.

The two scripts are straight-line glue code around a numerical library:
`train.py` loads the fixed 150-row, 4-feature, 3-class reference dataset,
splits it 80/20 with seed 42, fits a 100-estimator ensemble classifier with
seed 42, persists the fitted model to `model.joblib`, computes train/test
accuracies, and writes them to `metrics.json`.  `test_model.py` reloads the
dataset and the persisted model and runs two assertion checks: a
prediction-count check and an accuracy-threshold check (`accuracy > 0.8`).

The embedding below is shallow: rows are lists of rationals, a fitted
classifier is its prediction function, the filesystem is a record of the two
artifact files, and the scripts are pure functions over these.  Behaviour
delegated to the external library (the seeded splitter, serialization, mean
accuracy) is modelled from what the specification says of it, as marked
on each such definition.
-/

namespace GitActionsDemo

/-- A feature value of the dataset (numeric). -/
abbrev Feature := ℚ

/-- One row of the feature matrix: the 4 numeric features of a sample. -/
abbrev Row := List Feature

/-- A categorical integer class identifier (3 classes in the reference data). -/
abbrev Label := ℕ

/-- A fitted classifier.  Modelled from the spec: "a fitted statistical
function mapping a feature row to a predicted class label"; the internals
of the ensemble are opaque, so the model is represented by that function. -/
structure Model where
  classify : Row → Label

/-- `model.predict(X)`: apply the fitted classifier to each row of `X`,
producing one predicted label per row. -/
def Model.predict (m : Model) (X : List Row) : List Label :=
  X.map m.classify

/-- `model.score(X, y)`: mean accuracy, the sum over rows of the 0/1 match
indicator divided by the number of rows.  Modelled from the spec:
"Accuracy: fraction of predictions matching true labels" (the mean-accuracy scorer of the library). -/
def Model.score (m : Model) (X : List Row) (y : List Label) : ℚ :=
  (((m.predict X).zip y).foldl
    (fun acc p => acc + if p.1 = p.2 then (1 : ℚ) else 0) 0) / (X.length : ℚ)

/-- The reference definition the spec gives of accuracy, stated as a counting
fraction: the number of row positions whose predicted label equals the true
label, over the number of rows.  Written from the words of the spec, to be
compared with `Model.score`. -/
def matchFraction (m : Model) (X : List Row) (y : List Label) : ℚ :=
  ((((m.predict X).zip y).countP (fun p => p.1 == p.2) : ℕ) : ℚ) / (X.length : ℚ)

/-- Modelled from the spec: a step of the deterministic pseudo-random number
generator driving the data split (a linear congruential generator). -/
def lcg (s : ℕ) : ℕ := (1103515245 * s + 12345) % 2 ^ 31

/-- Modelled from the spec: the pseudo-random sort key the seeded shuffler
assigns to row index `i`. -/
def prKey (seed i : ℕ) : ℕ := lcg (seed + 1000003 * i)

/-- Modelled from the spec: the seeded shuffle inside `train_test_split` of the row
indices `0 .. n-1`, "a deterministic pseudo-random partitioning function
seeded with a fixed value" — a permutation of the indices obtained by
sorting them by their pseudo-random key. -/
def shuffledIdx (seed n : ℕ) : List ℕ :=
  (List.range n).mergeSort (fun a b => prKey seed a ≤ prKey seed b)

/-- The number of rows held out for testing: `test_size=0.2` holds out
⌈n/5⌉ of the `n` rows (30 of the 150 reference rows). -/
def nTest (n : ℕ) : ℕ := (n + 4) / 5

/-- The test partition of the row indices: the first ⌈n/5⌉ shuffled indices. -/
def testIdx (seed n : ℕ) : List ℕ := (shuffledIdx seed n).take (nTest n)

/-- The train partition of the row indices: the remaining shuffled indices. -/
def trainIdx (seed n : ℕ) : List ℕ := (shuffledIdx seed n).drop (nTest n)

/-- Select the rows of `xs` at the given indices, in order. -/
def select {α : Type} (xs : List α) (idx : List ℕ) : List α :=
  idx.filterMap xs.get?

/-- Modelled from the spec: `train_test_split(X, y, test_size=0.2,
random_state=seed)` — the same seeded index partition applied to the
feature matrix and to the label vector, returning
`(X_train, X_test, y_train, y_test)`. -/
def train_test_split (X : List Row) (y : List Label) (seed : ℕ) :
    List Row × List Row × List Label × List Label :=
  (select X (trainIdx seed X.length), select X (testIdx seed X.length),
   select y (trainIdx seed X.length), select y (testIdx seed X.length))

/-- The metrics record written by a training run: a flat mapping with the
two accuracy fields. -/
structure Metrics where
  train_accuracy : ℚ
  test_accuracy : ℚ
deriving DecidableEq

/-- The JSON object serialized to `metrics.json`: the ordered key/value
pairs of the metrics dict literal in `train.py`. -/
def metricsJson (mt : Metrics) : List (String × ℚ) :=
  [("train_accuracy", mt.train_accuracy), ("test_accuracy", mt.test_accuracy)]

/-- The filesystem as seen by the two scripts: the two artifact files,
each either absent or holding its (deserialized) object. -/
structure FileStore where
  modelFile : Option Model
  metricsFile : Option Metrics

/-- The empty filesystem: no artifact has been written yet. -/
def emptyFS : FileStore := ⟨none, none⟩

/-- Modelled from the spec: `joblib.dump(model, "model.joblib")` — persists
the fitted classifier object wholesale, overwriting the artifact file. -/
def joblibDump (m : Model) (fs : FileStore) : FileStore :=
  { fs with modelFile := some m }

/-- Modelled from the spec: `joblib.load("model.joblib")` — retrieves the
persisted classifier object from the artifact file, if present. -/
def joblibLoad (fs : FileStore) : Option Model := fs.modelFile

/-- The type of the opaque model-fitting routine of the library,
`RandomForestClassifier(n_estimators, random_state).fit(X_train, y_train)`:
its arguments, in order, are the ensemble size, the seed, the training
feature rows and the training labels, and it returns a fitted classifier.
Its internals are external to this repository, so the pipeline is stated
for an arbitrary such routine. -/
abbrev FitFn := ℕ → ℕ → List Row → List Label → Model

/-- All values produced by one execution of `train.py`: the loaded dataset,
the four split parts, the fitted model, the metrics record, and the
filesystem after both artifact writes.  Each field is bound exactly as the
corresponding variable of the script (seed 42 for both the split and the
model, ensemble size 100, `test_size=0.2`). -/
structure TrainResult where
  X : List Row
  y : List Label
  X_train : List Row
  X_test : List Row
  y_train : List Label
  y_test : List Label
  model : Model
  metrics : Metrics
  files : FileStore

/-- The training pipeline `train.py`, as a function of the dataset the
library supplies, the fitting routine of the library, and the initial
filesystem: split with seed 42, fit with 100 estimators and seed 42, dump
the model, score both partitions, write the metrics. -/
def runTrain (fit : FitFn) (X : List Row) (y : List Label) (fs0 : FileStore) :
    TrainResult :=
  let X_train := (train_test_split X y 42).1
  let X_test := (train_test_split X y 42).2.1
  let y_train := (train_test_split X y 42).2.2.1
  let y_test := (train_test_split X y 42).2.2.2
  let model := fit 100 42 X_train y_train
  let fs1 := joblibDump model fs0
  let train_score := model.score X_train y_train
  let test_score := model.score X_test y_test
  let metrics : Metrics := ⟨train_score, test_score⟩
  let fs2 : FileStore := { fs1 with metricsFile := some metrics }
  ⟨X, y, X_train, X_test, y_train, y_test, model, metrics, fs2⟩

/-- A file-write event of the training run: `train.py` performs exactly
two, `joblib.dump` of the fitted model (line 22) and the `json.dump` of the
metrics (line 34), in that order. -/
inductive FileEvent where
  | dumpModel (m : Model)
  | writeMetrics (mt : Metrics)

/-- Apply one file-write event to the filesystem. -/
def applyEvent (fs : FileStore) : FileEvent → FileStore
  | FileEvent.dumpModel m => { fs with modelFile := some m }
  | FileEvent.writeMetrics mt => { fs with metricsFile := some mt }

/-- Replay a sequence of file-write events on a filesystem. -/
def replay (fs : FileStore) (evs : List FileEvent) : FileStore :=
  evs.foldl applyEvent fs

/-- The ordered file-write trace of one execution of `train.py` on the
empty filesystem: the model dump strictly precedes the metrics write, and
the metrics written are the scores of the very model dumped.  A partially
failed run is a prefix of this trace. -/
def trainTrace (fit : FitFn) (X : List Row) (y : List Label) : List FileEvent :=
  [FileEvent.dumpModel (runTrain fit X y emptyFS).model,
   FileEvent.writeMetrics (runTrain fit X y emptyFS).metrics]

/-- The final dataset and result of one verification check of
`test_model.py`: the checks reload the dataset, so the outcome carries the
feature matrix and label vector as the check leaves them, together with
the verdict of the check (`ok` for a passing assertion, `error` with the
assertion message otherwise). -/
structure VerifyOutcome where
  X : List Row
  y : List Label
  result : Except String Unit

/-- `test_model_predictions` of `test_model.py`: reload the dataset and the
persisted model, predict over the full feature matrix, and assert that the
number of predictions equals the number of true labels. -/
def test_model_predictions (X : List Row) (y : List Label) (fs : FileStore) :
    VerifyOutcome :=
  match joblibLoad fs with
  | none => ⟨X, y, Except.error "model.joblib not found"⟩
  | some model =>
      let predictions := model.predict X
      if predictions.length = y.length then ⟨X, y, Except.ok ()⟩
      else ⟨X, y, Except.error "Prediction length does not match target length"⟩

/-- `test_model_accuracy` of `test_model.py`: reload the dataset and the
persisted model, score the model over the full dataset, and assert that the
accuracy strictly exceeds 0.8. -/
def test_model_accuracy (X : List Row) (y : List Label) (fs : FileStore) :
    VerifyOutcome :=
  match joblibLoad fs with
  | none => ⟨X, y, Except.error "model.joblib not found"⟩
  | some model =>
      let accuracy := model.score X y
      if accuracy > 8 / 10 then ⟨X, y, Except.ok ()⟩
      else ⟨X, y, Except.error "Model accuracy is below threshold of 0.8"⟩

/-- A trivial fitting routine (a constant classifier), used to instantiate
theorems that hold for an arbitrary fitting routine at a concrete one. -/
def constFit : FitFn := fun _ _ _ _ => ⟨fun _ => 0⟩

/-- A concrete classifier instance (predicts class 0 everywhere), used to
instantiate theorems at a concrete model. -/
def wModel : Model := ⟨fun _ => 0⟩

/-- A concrete 150-row feature matrix, used to instantiate theorems at a
concrete dataset of the reference size. -/
def wX : List Row := List.replicate 150 [5, 3, 1, 0]

/-- A concrete 150-entry label vector aligned with `wX`. -/
def wY : List Label := List.replicate 150 0

/-- A concrete filesystem holding a persisted model, as left by a
completed training run. -/
def wFS : FileStore := ⟨some wModel, none⟩

/-! ### Facts about the seeded index shuffle and the 80/20 split -/

lemma shuffledIdx_perm (seed n : ℕ) : (shuffledIdx seed n).Perm (List.range n) :=
  List.mergeSort_perm (List.range n) _

lemma shuffledIdx_nodup (seed n : ℕ) : (shuffledIdx seed n).Nodup :=
  ((shuffledIdx_perm seed n).nodup_iff).mpr (List.nodup_range n)

lemma shuffledIdx_length (seed n : ℕ) : (shuffledIdx seed n).length = n := by
  rw [shuffledIdx, List.length_mergeSort, List.length_range]

lemma mem_shuffledIdx (seed n i : ℕ) : i ∈ shuffledIdx seed n ↔ i < n := by
  rw [(shuffledIdx_perm seed n).mem_iff, List.mem_range]

lemma testIdx_append_trainIdx (seed n : ℕ) :
    testIdx seed n ++ trainIdx seed n = shuffledIdx seed n :=
  List.take_append_drop _ _

lemma testIdx_disjoint_trainIdx (seed n : ℕ) :
    (testIdx seed n).Disjoint (trainIdx seed n) := by
  apply List.disjoint_of_nodup_append
  rw [testIdx_append_trainIdx]
  exact shuffledIdx_nodup seed n

lemma mem_testIdx_or_trainIdx (seed n i : ℕ) (hi : i < n) :
    i ∈ testIdx seed n ∨ i ∈ trainIdx seed n := by
  have hmem : i ∈ testIdx seed n ++ trainIdx seed n := by
    rw [testIdx_append_trainIdx, mem_shuffledIdx]
    exact hi
  exact List.mem_append.mp hmem

lemma testIdx_length (seed n : ℕ) (h : nTest n ≤ n) :
    (testIdx seed n).length = nTest n := by
  rw [testIdx, List.length_take, shuffledIdx_length]
  exact Nat.min_eq_left h

lemma trainIdx_length (seed n : ℕ) :
    (trainIdx seed n).length = n - nTest n := by
  rw [trainIdx, List.length_drop, shuffledIdx_length]

/-! ### Facts about the mean-accuracy scorer -/

lemma foldl_add_indicator (l : List (Label × Label)) (a : ℚ) :
    l.foldl (fun acc p => acc + if p.1 = p.2 then (1 : ℚ) else 0) a
      = a + ((l.countP (fun p => p.1 == p.2) : ℕ) : ℚ) := by
  induction l generalizing a with
  | nil => simp
  | cons hd tl ih =>
      rw [List.foldl_cons, ih, List.countP_cons]
      by_cases h : hd.1 = hd.2 <;> simp [h] <;> ring

lemma score_eq_matchFraction (m : Model) (X : List Row) (y : List Label) :
    m.score X y = matchFraction m X y := by
  unfold Model.score matchFraction
  rw [foldl_add_indicator]
  simp

lemma score_nonneg (m : Model) (X : List Row) (y : List Label) :
    0 ≤ m.score X y := by
  rw [score_eq_matchFraction, matchFraction]
  positivity

lemma score_le_one (m : Model) (X : List Row) (y : List Label) :
    m.score X y ≤ 1 := by
  rw [score_eq_matchFraction, matchFraction]
  apply div_le_one_of_le₀
  · have hcount : ((m.predict X).zip y).countP (fun p => p.1 == p.2)
        ≤ ((m.predict X).zip y).length := List.countP_le_length _
    have hzip : ((m.predict X).zip y).length ≤ X.length := by
      rw [List.length_zip, Model.predict, List.length_map]
      exact Nat.min_le_left _ _
    exact_mod_cast hcount.trans hzip
  · positivity

/-! ### The claims -/

/-- Claim C1: the accuracy check of the verification pipeline fails (assertion
error, non-zero exit) if and only if the accuracy of the loaded model over the
full 150-row dataset is at most 0.8; when the accuracy strictly exceeds
0.8 the check passes. -/
theorem accuracy_threshold_check_c1 (m : Model) (X : List Row) (y : List Label)
    (fs : FileStore) (hm : fs.modelFile = some m)
    (_hX : X.length = 150) (_hy : y.length = 150) :
    ((test_model_accuracy X y fs).result ≠ Except.ok ()) ↔
      m.score X y ≤ 8 / 10 := by
  unfold test_model_accuracy joblibLoad
  rw [hm]
  by_cases h : m.score X y > 8 / 10
  · simp only [h, if_pos, ne_eq, not_true_eq_false, false_iff, not_le]
  · simp only [h, if_neg, ne_eq, reduceCtorEq, not_false_eq_true, true_iff]
    exact not_lt.mp h

/-- Witness for C1: the accuracy-check equivalence instantiated at a
concrete constant classifier and a concrete 150-row dataset. -/
theorem accuracy_threshold_check_c1_witness :
    ((test_model_accuracy wX wY wFS).result ≠ Except.ok ()) ↔
      wModel.score wX wY ≤ 8 / 10 :=
  accuracy_threshold_check_c1 wModel wX wY wFS rfl (by simp [wX]) (by simp [wY])

/-- Claim C2: round-trip through persistence — the model written to
`model.joblib` by the training pipeline, when reloaded, is the fitted model
itself, so it produces exactly the same predicted label for every input row
as the in-memory model immediately after fitting. -/
theorem model_roundtrip_c2 (fit : FitFn) (X : List Row) (y : List Label)
    (fs : FileStore) (rows : List Row) :
    ∃ loaded : Model,
      joblibLoad (runTrain fit X y fs).files = some loaded ∧
      loaded.predict rows = (runTrain fit X y fs).model.predict rows ∧
      ∀ r : Row, loaded.classify r = (runTrain fit X y fs).model.classify r :=
  ⟨(runTrain fit X y fs).model, rfl, rfl, fun _ => rfl⟩

/-- Claim C3: determinism under the fixed seed — two executions of the
training pipeline (even from different prior filesystem states) produce
exactly the same train/test partitions and the same `train_accuracy` and
`test_accuracy` values. -/
theorem train_determinism_c3 (fit : FitFn) (X : List Row) (y : List Label)
    (fs1 fs2 : FileStore) :
    (runTrain fit X y fs1).X_train = (runTrain fit X y fs2).X_train ∧
    (runTrain fit X y fs1).X_test = (runTrain fit X y fs2).X_test ∧
    (runTrain fit X y fs1).y_train = (runTrain fit X y fs2).y_train ∧
    (runTrain fit X y fs1).y_test = (runTrain fit X y fs2).y_test ∧
    (runTrain fit X y fs1).metrics.train_accuracy
        = (runTrain fit X y fs2).metrics.train_accuracy ∧
    (runTrain fit X y fs1).metrics.test_accuracy
        = (runTrain fit X y fs2).metrics.test_accuracy :=
  ⟨rfl, rfl, rfl, rfl, rfl, rfl⟩

/-- Claim C5: `predict` over `N` rows returns exactly `N` labels, so the
length assertion of the verification pipeline holds and its failure branch is
unreachable whenever the feature matrix and label vector have the same
length. -/
theorem prediction_count_c5 (m : Model) (X : List Row) (y : List Label)
    (fs : FileStore) (hm : fs.modelFile = some m) (hlen : X.length = y.length) :
    (m.predict X).length = X.length ∧
    (test_model_predictions X y fs).result = Except.ok () := by
  have hp : (m.predict X).length = X.length := by
    rw [Model.predict, List.length_map]
  refine ⟨hp, ?_⟩
  unfold test_model_predictions joblibLoad
  rw [hm]
  simp only [hp.trans hlen, if_pos]

/-- Witness for C5: the prediction-count property instantiated at a
concrete classifier and a concrete 150-row dataset. -/
theorem prediction_count_c5_witness :
    (wModel.predict wX).length = wX.length ∧
    (test_model_predictions wX wY wFS).result = Except.ok () :=
  prediction_count_c5 wModel wX wY wFS rfl (by simp [wX, wY])

/-- Claim C4: the seed-42 split of the 150 row indices places every index
in exactly one of the two partitions (disjoint and exhaustive), holds out
30 indices for testing and 120 for training, and yields the same partition
on every run with the same seed. -/
theorem split_partition_c4 (i : ℕ) (hi : i < 150) :
    ((i ∈ trainIdx 42 150 ∧ i ∉ testIdx 42 150) ∨
     (i ∉ trainIdx 42 150 ∧ i ∈ testIdx 42 150)) ∧
    (testIdx 42 150).length = 30 ∧ (trainIdx 42 150).length = 120 ∧
    trainIdx 42 150 = trainIdx 42 150 ∧ testIdx 42 150 = testIdx 42 150 := by
  refine ⟨?_, ?_, ?_, rfl, rfl⟩
  · rcases mem_testIdx_or_trainIdx 42 150 i hi with h | h
    · exact Or.inr ⟨fun hc => testIdx_disjoint_trainIdx 42 150 h hc, h⟩
    · exact Or.inl ⟨h, fun hc => testIdx_disjoint_trainIdx 42 150 hc h⟩
  · rw [testIdx_length 42 150 (by norm_num [nTest])]
    norm_num [nTest]
  · rw [trainIdx_length]
    norm_num [nTest]

/-- Witness for C4: the partition property instantiated at row index 0. -/
theorem split_partition_c4_witness :
    ((0 ∈ trainIdx 42 150 ∧ 0 ∉ testIdx 42 150) ∨
     (0 ∉ trainIdx 42 150 ∧ 0 ∈ testIdx 42 150)) ∧
    (testIdx 42 150).length = 30 ∧ (trainIdx 42 150).length = 120 ∧
    trainIdx 42 150 = trainIdx 42 150 ∧ testIdx 42 150 = testIdx 42 150 :=
  split_partition_c4 0 (by norm_num)

/-- Claim C6: the metrics record written by every training run has exactly
the two fields `train_accuracy` and `test_accuracy`, in that order, and
each value lies in the closed interval [0, 1]. -/
theorem metrics_fields_bounds_c6 (fit : FitFn) (X : List Row) (y : List Label)
    (fs : FileStore) :
    (metricsJson (runTrain fit X y fs).metrics).map Prod.fst
        = ["train_accuracy", "test_accuracy"] ∧
    (metricsJson (runTrain fit X y fs).metrics).length = 2 ∧
    0 ≤ (runTrain fit X y fs).metrics.train_accuracy ∧
    (runTrain fit X y fs).metrics.train_accuracy ≤ 1 ∧
    0 ≤ (runTrain fit X y fs).metrics.test_accuracy ∧
    (runTrain fit X y fs).metrics.test_accuracy ≤ 1 :=
  ⟨rfl, rfl, score_nonneg _ _ _, score_le_one _ _ _,
   score_nonneg _ _ _, score_le_one _ _ _⟩

/-- Claim C7: the recorded `train_accuracy` equals the fraction of
train-partition rows whose predicted label matches the true label, and
`test_accuracy` equals the same fraction over the test partition, for the
fitted model. -/
theorem metrics_fraction_c7 (fit : FitFn) (X : List Row) (y : List Label)
    (fs : FileStore) :
    (runTrain fit X y fs).metrics.train_accuracy
        = matchFraction (runTrain fit X y fs).model
            (runTrain fit X y fs).X_train (runTrain fit X y fs).y_train ∧
    (runTrain fit X y fs).metrics.test_accuracy
        = matchFraction (runTrain fit X y fs).model
            (runTrain fit X y fs).X_test (runTrain fit X y fs).y_test :=
  ⟨score_eq_matchFraction _ _ _, score_eq_matchFraction _ _ _⟩

/-- Claim C9: frame property — neither the training pipeline nor either
verification check mutates the loaded feature matrix or label vector: the
dataset each of them ends with is the dataset it loaded. -/
theorem dataset_frame_c9 (fit : FitFn) (X : List Row) (y : List Label)
    (fs : FileStore) :
    (runTrain fit X y fs).X = X ∧ (runTrain fit X y fs).y = y ∧
    (test_model_predictions X y fs).X = X ∧
    (test_model_predictions X y fs).y = y ∧
    (test_model_accuracy X y fs).X = X ∧
    (test_model_accuracy X y fs).y = y := by
  unfold test_model_predictions test_model_accuracy joblibLoad
  cases fs.modelFile with
  | none => exact ⟨rfl, rfl, rfl, rfl, rfl, rfl⟩
  | some m =>
      refine ⟨rfl, rfl, ?_, ?_, ?_, ?_⟩ <;>
        · dsimp only
          split <;> rfl

/-- Claim C10: within a training run the model dump strictly precedes the
metrics write, so after any prefix of the file-write trace of the run (any
completed or partially failed run), if `metrics.json` exists then the
persisted model file holds exactly the fitted model whose train and test
scores the metrics record reports. -/
theorem model_before_metrics_c10 (fit : FitFn) (X : List Row) (y : List Label)
    (k : ℕ) (mt : Metrics)
    (h : (replay emptyFS ((trainTrace fit X y).take k)).metricsFile = some mt) :
    (replay emptyFS ((trainTrace fit X y).take k)).modelFile
        = some (runTrain fit X y emptyFS).model ∧
    mt = (runTrain fit X y emptyFS).metrics ∧
    mt.train_accuracy
        = (runTrain fit X y emptyFS).model.score
            (runTrain fit X y emptyFS).X_train (runTrain fit X y emptyFS).y_train ∧
    mt.test_accuracy
        = (runTrain fit X y emptyFS).model.score
            (runTrain fit X y emptyFS).X_test (runTrain fit X y emptyFS).y_test := by
  match k with
  | 0 =>
      simp [replay, emptyFS] at h
  | 1 =>
      simp [trainTrace, replay, applyEvent, emptyFS] at h
  | (n + 2) =>
      have hmt : mt = (runTrain fit X y emptyFS).metrics := by
        simp [trainTrace, replay, applyEvent, emptyFS] at h
        exact h.symm
      subst hmt
      refine ⟨?_, rfl, rfl, rfl⟩
      simp [trainTrace, replay, applyEvent, emptyFS]

/-- Witness for C10: the ordering property instantiated at the constant
fitting routine, the empty dataset, and the full two-event trace. -/
theorem model_before_metrics_c10_witness :
    (replay emptyFS ((trainTrace constFit [] []).take 2)).modelFile
        = some (runTrain constFit [] [] emptyFS).model ∧
    (runTrain constFit [] [] emptyFS).metrics
        = (runTrain constFit [] [] emptyFS).metrics ∧
    (runTrain constFit [] [] emptyFS).metrics.train_accuracy
        = (runTrain constFit [] [] emptyFS).model.score
            (runTrain constFit [] [] emptyFS).X_train
            (runTrain constFit [] [] emptyFS).y_train ∧
    (runTrain constFit [] [] emptyFS).metrics.test_accuracy
        = (runTrain constFit [] [] emptyFS).model.score
            (runTrain constFit [] [] emptyFS).X_test
            (runTrain constFit [] [] emptyFS).y_test :=
  model_before_metrics_c10 constFit [] [] 2
    (runTrain constFit [] [] emptyFS).metrics rfl

end GitActionsDemo
